import Mathlib

/-!
Verification development for the portfolio chatbot backend (src/main.py).

The file shallowly embeds the Python source: the response cache is an
insertion-ordered association list (mirroring a Python dict with string
keys), the external generative-model call is an oracle parameter, the MD5
hex digest is an abstract function parameter (only its congruence is ever
used by the program logic), and exceptions are explicit result values.
-/

/-- Embedding of Python str.strip: remove leading and trailing whitespace. -/
def pyStrip (s : String) : String :=
  String.mk (((s.data.dropWhile Char.isWhitespace).reverse.dropWhile
    Char.isWhitespace).reverse)

/-- The in-memory response cache: an insertion-ordered key-value list, the
shallow embedding of the Python dict response_cache (oldest entry first,
newest last, keys pairwise distinct along every reachable run). -/
abbrev Cache := List (String × String)

/-- Limit cache to 100 entries (MAX_CACHE_SIZE in src/main.py). -/
def MAX_CACHE_SIZE : Nat := 100

/-- Embedding of cache_key in response_cache followed by indexing: the first
binding of the key, if any. -/
def dict_lookup (d : Cache) (k : String) : Option String :=
  (d.find? (fun kv => kv.1 == k)).map (fun kv => kv.2)

/-- Embedding of response_cache.pop of next(iter(response_cache)): removing
the first (oldest inserted) key of an insertion-ordered dict drops its
first binding. -/
def dict_pop_first (d : Cache) : Cache := d.tail

/-- Embedding of Python dict assignment d[k] = v: update in place when the
key is present (keeping its position), else append at the newest position. -/
def dict_set (d : Cache) (k v : String) : Cache :=
  if d.any (fun kv => kv.1 == k) then
    d.map (fun kv => if kv.1 == k then (k, v) else kv)
  else d ++ [(k, v)]

/-- Embedding of Python str.lower: lowercase every character (the
character-wise map String.toLower computes, stated structurally so that
concrete instances evaluate). -/
def pyLower (s : String) : String :=
  String.mk (s.data.map Char.toLower)

/-- Embedding of get_cache_key: md5 hex digest of the lowercased, stripped
message. The digest itself is an abstract parameter md5; the program only
ever relies on it being a function. -/
def get_cache_key (md5 : String → String) (message : String) : String :=
  md5 (pyStrip (pyLower message))

/-- Fixed prefix of the prompt template in get_ai_response, up to the
interpolated user message (the Python f-string body, verbatim; \x27 is an
apostrophe). -/
def promptPrefix : String :=
  "\n" ++
  "        You are the AI assistant for Senal Ridmila\x27s Personal Portfolio.\n" ++
  "        Your goal is to answer visitor questions in a friendly, \"Singlish\" (Sinhala words in English) style.\n" ++
  "        \n" ++
  "        --- SENAL\x27S DATA (KNOWLEDGE BASE) ---\n" ++
  "        \n" ++
  "        1. WHO IS SENAL?\n" ++
  "           - Name: Senal Ridmila\n" ++
  "           - Role: Undergraduate Student & Full Stack Developer\n" ++
  "           - Education: BSc (Hons) in Network and Mobile Computing at Horizon Campus.\n" ++
  "           - Passion: Software development, working under pressure, and learning new tech.\n" ++
  "           \n" ++
  "        2. SKILLS (Mewa gana ahuwoth kiyanna):\n" ++
  "           - Languages: Java (OOP), JavaScript, Python, PHP\n" ++
  "           - Frameworks: Spring Boot, React.js, Next.js, Node.js, React Native (Expo)\n" ++
  "           - Databases: MySQL, MongoDB\n" ++
  "           - Tools: Docker, Git, VS Code, Firebase\n" ++
  "           \n" ++
  "        3. KEY PROJECTS (Wada karapu projects):\n" ++
  "           - Ayurveda Wellness App: A mobile app for connecting patients with Ayurvedic doctors (React Native, Firebase).\n" ++
  "           - Pet Toy Shop: E-commerce platform built with Spring Boot, React, and MongoDB (Full Stack).\n" ++
  "           - Car Rental System: Java Swing and MySQL based system for managing rentals.\n" ++
  "           - Virtual Fitting App: A virtual try-on experience using Next.js and Tailwind CSS.\n" ++
  "           - SLT Tire Management: Tire request system using React and Java.\n" ++
  "           \n" ++
  "        4. CONTACT DETAILS:\n" ++
  "           - Phone: +94 781304930 , +9477 1304930\n" ++
  "           - Email: senalridmila2@gmail.com\n" ++
  "           - LinkedIn: linkedin.com/in/senal-ridmila-98b996292\n" ++
  "           - GitHub: github.com/SenalRidmila\n" ++
  "\n" ++
  "        --- GUIDELINES FOR ANSWERING ---\n" ++
  "        \n" ++
  "        1. Tone: Friendly, casual, and helpful. Use Singlish words like \"Kohomada\", \"Ow\", \"Puluwan\", \"Thiyenawa\", \"Hari\".\n" ++
  "        2. If user says \"Hi\" or \"Hello\": Reply \"Hi! Kohomada? Senal gana wisthara ona nam ahanna.\"\n" ++
  "        3. If asked about \"Skills\": Mention his Java, React, and Spring Boot skills mainly.\n" ++
  "        4. If asked about \"Education\": Say he is studying at Horizon Campus.\n" ++
  "        5. If asked about \"Contact\": Give the email and LinkedIn link.\n" ++
  "        6. Keep answers short (max 2-3 sentences). Don\x27t write long essays.\n" ++
  "\n" ++
  "        --- CONVERSATION ---\n" ++
  "        User: "

/-- Embedding of the prompt construction: fixed template with the user
message interpolated verbatim. -/
def buildPrompt (user_message : String) : String :=
  promptPrefix ++ user_message ++ "\n        AI:\n        "

/-- Outcome of one call to active_model.generate_content: either an
exception (caught by the surrounding try), or a returned response whose
text attribute is the given string. A falsy response or empty/absent text
is embedded as the empty string, matching the truthiness test
"if response and response.text". -/
inductive GenResult where
  | raised (msg : String)
  | returned (text : String)

/-- Result of one get_ai_response call: the reply string, the cache after
the call, and instrumentation counting how many cache lookups and how many
external model invocations the call performed. -/
structure ChatResult where
  reply : String
  cache : Cache
  cacheLookups : Nat
  modelCalls : Nat

/-- Embedding of get_ai_response. The selected model is an oracle mapping a
prompt to a GenResult; None is the degraded no-model state. -/
def get_ai_response (md5 : String → String)
    (active_model : Option (String → GenResult))
    (response_cache : Cache) (user_message : String) : ChatResult :=
  match active_model with
  | none => ⟨"Server Error: No AI model available.", response_cache, 0, 0⟩
  | some model =>
    let cache_key := get_cache_key md5 user_message
    match dict_lookup response_cache cache_key with
    | some cached => ⟨cached, response_cache, 1, 0⟩
    | none =>
      match model (buildPrompt user_message) with
      | .raised _ =>
        ⟨"Samawenna, podi aulak. Internet connection eka balanna.",
          response_cache, 1, 1⟩
      | .returned text =>
        if text ≠ "" then
          let reply := pyStrip text
          let cache1 :=
            if MAX_CACHE_SIZE ≤ response_cache.length then
              dict_pop_first response_cache
            else response_cache
          ⟨reply, dict_set cache1 cache_key reply, 1, 1⟩
        else
          ⟨"Samawenna, mata kiyanna deyak hithaganna ba.", response_cache, 1, 1⟩

/-- HTTP view of a /chat response: FastAPI serializes the returned dict
with status 200 whenever the handler returns normally. -/
structure ChatHTTPResponse where
  status : Nat
  reply : String

/-- Embedding of chat_endpoint: call get_ai_response on the request message
and wrap the reply in a JSON body, status 200. -/
def chat_endpoint (md5 : String → String)
    (active_model : Option (String → GenResult))
    (response_cache : Cache) (message : String) : ChatHTTPResponse × Cache :=
  let r := get_ai_response md5 active_model response_cache message
  (⟨200, r.reply⟩, r.cache)

/-- Run a sequence of chat calls from a given cache state; each step brings
its own model state (None when degraded) and user message. -/
def run_chats (md5 : String → String) (cache : Cache)
    (steps : List (Option (String → GenResult) × String)) : Cache :=
  steps.foldl (fun c step => (get_ai_response md5 step.1 c step.2).cache) cache

/-- Preference-ordered model identifiers (target_models in src/main.py). -/
def target_models : List String :=
  ["models/gemini-1.5-flash", "models/gemini-pro", "models/gemini-1.5-pro"]

/-- Embedding of the selection loop: first target contained in the
available list, scanning targets in order. -/
def select_loop : List String → List String → Option String
  | [], _ => none
  | target :: rest, available =>
    if available.contains target then some target else select_loop rest available

/-- Python truthiness of the selected_model_name variable (None and the
empty string are falsy). -/
def py_truthy : Option String → Bool
  | none => false
  | some t => !(t == "")

/-- Embedding of lines 37-48 of src/main.py: selected_model_name after the
preference loop and the fallback to available_models[0]. -/
def selected_model_name (available_models : List String) : Option String :=
  let s := select_loop target_models available_models
  if !(py_truthy s) && !available_models.isEmpty then available_models.head?
  else s

/-- Embedding of lines 50-54: active_model is set only when
selected_model_name is truthy; otherwise the process stays degraded. -/
def active_model_name (available_models : List String) : Option String :=
  let s := selected_model_name available_models
  if py_truthy s then s else none

/-- Description of one provider model as returned by the capability
listing: its name and supported generation methods. -/
structure ProviderModel where
  name : String
  supported_generation_methods : List String

/-- Embedding of lines 31-34: names of listed models that support the
generateContent method, in provider-returned order. -/
def compute_available_models (listed : List ProviderModel) : List String :=
  (listed.filter
    (fun m => m.supported_generation_methods.contains "generateContent")).map
    (fun m => m.name)

/-- Outcome of one external side-effecting step: a normal value, or a
Python exception whose str(e) is the given message. -/
inductive PyResult (α : Type) where
  | ok (val : α)
  | exc (msg : String)

/-- PIL image object, abstracted to the one attribute the handler reads. -/
structure PILImg where
  mode : String

/-- FileResponse data as constructed by the handlers. -/
structure FileResp where
  path : String
  filename : String
  media_type : String

/-- HTTPException raised by the conversion handlers on failure. -/
structure HTTPExc where
  status_code : Nat
  detail : String

/-- External collaborators of img_to_pdf: persisting the upload, opening
the image, color-mode conversion, saving as PDF, building the response. -/
structure ImgEnv where
  writeUpload : String → PyResult Unit
  openImage : String → PyResult PILImg
  convertMode : PILImg → String → PyResult PILImg
  save : PILImg → String → PyResult Unit
  mkResponse : String → String → String → PyResult Unit

/-- Scratch input path f-string of both handlers. -/
def input_path_of (filename : String) : String := "temp_uploads/" ++ filename

/-- Split a character list on a separator character (the list-level
behavior of Python str.split with an explicit separator). -/
def splitOnChar (c : Char) : List Char → List (List Char)
  | [] => [[]]
  | a :: rest =>
    match splitOnChar c rest with
    | [] => [[]]
    | h :: t => if a == c then [] :: h :: t else (a :: h) :: t

/-- Embedding of Python str.split(sep) for a one-character separator,
stated structurally so that concrete instances evaluate. -/
def pySplit (c : Char) (s : String) : List String :=
  (splitOnChar c s.data).map String.mk

/-- Output filename of img_to_pdf: the part of the upload name before the
first dot, with extension .pdf. -/
def img_output_filename (filename : String) : String :=
  ((pySplit '.' filename).headD "") ++ ".pdf"

/-- Scratch output path of img_to_pdf. -/
def img_output_path (filename : String) : String :=
  "temp_outputs/" ++ img_output_filename filename

/-- Body of the img_to_pdf try block: persist the upload, open it as an
image, convert to RGB when the mode differs, save to the output path,
return the FileResponse. -/
def img_to_pdf_body (env : ImgEnv) (filename : String) : PyResult FileResp :=
  match env.writeUpload (input_path_of filename) with
  | .exc m => .exc m
  | .ok _ =>
    match env.openImage (input_path_of filename) with
    | .exc m => .exc m
    | .ok image0 =>
      match (if image0.mode ≠ "RGB" then env.convertMode image0 "RGB"
             else .ok image0) with
      | .exc m => .exc m
      | .ok image =>
        match env.save image (img_output_path filename) with
        | .exc m => .exc m
        | .ok _ =>
          match env.mkResponse (img_output_path filename)
              (img_output_filename filename) "application/pdf" with
          | .exc m => .exc m
          | .ok _ =>
            .ok ⟨img_output_path filename, img_output_filename filename,
              "application/pdf"⟩

/-- Embedding of the img_to_pdf handler: its try/except catches every
exception of the body and re-raises HTTPException 500 with str(e). -/
def img_to_pdf (env : ImgEnv) (filename : String) : Except HTTPExc FileResp :=
  match img_to_pdf_body env filename with
  | .ok r => .ok r
  | .exc m => .error ⟨500, m⟩

/-- Handle to a pdf2docx Converter instance. -/
structure PdfConverter where
  src : String

/-- External collaborators of pdf_to_word: persisting the upload, building
the converter, converting (page range start 0, end None meaning all
pages), closing, building the response. -/
structure PdfEnv where
  writeUpload : String → PyResult Unit
  mkConverter : String → PyResult PdfConverter
  convert : PdfConverter → String → Nat → Option Nat → PyResult Unit
  close : PdfConverter → PyResult Unit
  mkResponse : String → String → String → PyResult Unit

/-- Output filename of pdf_to_word: the part of the upload name before the
first dot, with extension .docx. -/
def word_output_filename (filename : String) : String :=
  ((pySplit '.' filename).headD "") ++ ".docx"

/-- Scratch output path of pdf_to_word. -/
def word_output_path (filename : String) : String :=
  "temp_outputs/" ++ word_output_filename filename

/-- Body of the pdf_to_word try block. -/
def pdf_to_word_body (env : PdfEnv) (filename : String) : PyResult FileResp :=
  match env.writeUpload (input_path_of filename) with
  | .exc m => .exc m
  | .ok _ =>
    match env.mkConverter (input_path_of filename) with
    | .exc m => .exc m
    | .ok cv =>
      match env.convert cv (word_output_path filename) 0 none with
      | .exc m => .exc m
      | .ok _ =>
        match env.close cv with
        | .exc m => .exc m
        | .ok _ =>
          match env.mkResponse (word_output_path filename)
              (word_output_filename filename)
              "application/vnd.openxmlformats-officedocument.wordprocessingml.document" with
          | .exc m => .exc m
          | .ok _ =>
            .ok ⟨word_output_path filename, word_output_filename filename,
              "application/vnd.openxmlformats-officedocument.wordprocessingml.document"⟩

/-- Embedding of the pdf_to_word handler with its catch-all except. -/
def pdf_to_word (env : PdfEnv) (filename : String) : Except HTTPExc FileResp :=
  match pdf_to_word_body env filename with
  | .ok r => .ok r
  | .exc m => .error ⟨500, m⟩

/-- Join name parts back with dots (helper for the spec-side stem). -/
def joinWithDot : List String → String
  | [] => ""
  | [x] => x
  | x :: xs => x ++ "." ++ joinWithDot xs

/-- Modelled from the spec: the original filename stem, "the filename
without its extension" — everything before the last dot when the name has
a dot, the whole name otherwise. Used only to compare the spec wording
against the source computation img_output_filename. -/
def spec_filename_stem (filename : String) : String :=
  let parts := pySplit '.' filename
  if parts.length ≤ 1 then filename
  else joinWithDot parts.dropLast

/-- Abstract digest used by concrete witnesses: the identity map stands in
for the md5 hex digest, which the program logic never inspects. -/
def idDigest : String → String := fun s => s

/-- Model oracle that always returns the given text. -/
def modelReturning (t : String) : String → GenResult :=
  fun _ => GenResult.returned t

/-- Model oracle that always raises with the given message. -/
def modelRaising (m : String) : String → GenResult :=
  fun _ => GenResult.raised m

/-- Concrete full cache used by the FIFO witness. -/
def cache100 : Cache := List.replicate MAX_CACHE_SIZE ("k", "v")

/-- Invariant of claim C10: every cached value equals its own strip. -/
def cache_values_stripped (d : Cache) : Prop :=
  ∀ kv ∈ d, pyStrip kv.2 = kv.2

/-- Image environment whose respond step raises, all earlier steps fine. -/
def imgEnvRespRaises : ImgEnv :=
  ⟨fun _ => .ok (), fun _ => .ok ⟨"RGB"⟩, fun img _ => .ok img,
    fun _ _ => .ok (), fun _ _ _ => .exc "disk full"⟩

/-- Document environment whose convert step raises. -/
def pdfEnvConvertRaises : PdfEnv :=
  ⟨fun _ => .ok (), fun p => .ok ⟨p⟩, fun _ _ _ _ => .exc "bad pdf",
    fun _ => .ok (), fun _ _ _ => .ok ()⟩

/-- Image environment in which every external step succeeds. -/
def imgEnvOk : ImgEnv :=
  ⟨fun _ => .ok (), fun _ => .ok ⟨"RGB"⟩, fun img _ => .ok img,
    fun _ _ => .ok (), fun _ _ _ => .ok ()⟩

theorem dropWhile_dropWhile {α : Type} (p : α → Bool) (l : List α) :
    (l.dropWhile p).dropWhile p = l.dropWhile p := by
  induction l with
  | nil => rfl
  | cons a l ih =>
    by_cases h : p a
    · simp [List.dropWhile_cons, h, ih]
    · simp [List.dropWhile_cons, h]

theorem dropWhile_suffix {α : Type} (p : α → Bool) (l : List α) :
    l.dropWhile p <:+ l := by
  induction l with
  | nil => exact List.nil_suffix
  | cons a l ih =>
    by_cases h : p a
    · rw [List.dropWhile_cons_of_pos h]
      exact ih.trans (List.suffix_cons a l)
    · rw [List.dropWhile_cons_of_neg h]

theorem dropWhile_eq_self_of_leading {α : Type} (p : α → Bool) {m l : List α}
    (hpre : m <+: l.dropWhile p) : m.dropWhile p = m := by
  rcases m with _ | ⟨a, m0⟩
  · rfl
  · obtain ⟨t, ht⟩ := hpre
    have hhead := List.head?_dropWhile_not p l
    rw [← ht] at hhead
    simp only [List.cons_append, List.head?_cons] at hhead
    simp [List.dropWhile_cons, hhead]

theorem pyStrip_idem (s : String) : pyStrip (pyStrip s) = pyStrip s := by
  have hA : (((s.data.dropWhile Char.isWhitespace).reverse.dropWhile
        Char.isWhitespace).reverse).dropWhile Char.isWhitespace
      = ((s.data.dropWhile Char.isWhitespace).reverse.dropWhile
        Char.isWhitespace).reverse := by
    apply dropWhile_eq_self_of_leading Char.isWhitespace (l := s.data)
    have hsuf := dropWhile_suffix Char.isWhitespace
      (s.data.dropWhile Char.isWhitespace).reverse
    have hp := List.reverse_prefix.mpr hsuf
    simpa using hp
  show String.mk _ = String.mk _
  congr 1
  show ((((((s.data.dropWhile Char.isWhitespace).reverse.dropWhile
      Char.isWhitespace).reverse).dropWhile Char.isWhitespace).reverse).dropWhile
      Char.isWhitespace).reverse
    = ((s.data.dropWhile Char.isWhitespace).reverse.dropWhile
      Char.isWhitespace).reverse
  rw [hA, List.reverse_reverse, dropWhile_dropWhile]

theorem dict_lookup_eq_none_iff (d : Cache) (k : String) :
    dict_lookup d k = none ↔ ∀ kv ∈ d, (kv.1 == k) = false := by
  simp [dict_lookup, List.find?_eq_none]

theorem dict_set_eq_append {d : Cache} {k v : String}
    (h : ∀ kv ∈ d, (kv.1 == k) = false) :
    dict_set d k v = d ++ [(k, v)] := by
  have hany : d.any (fun kv => kv.1 == k) = false := by
    rw [List.any_eq_false]
    intro kv hkv
    simp [h kv hkv]
  rw [dict_set, hany]
  simp

theorem dict_lookup_append_fresh {d : Cache} {k v : String}
    (h : ∀ kv ∈ d, (kv.1 == k) = false) :
    dict_lookup (d ++ [(k, v)]) k = some v := by
  have hfind : d.find? (fun kv => kv.1 == k) = none :=
    List.find?_eq_none.mpr (fun kv hkv => by simp [h kv hkv])
  simp [dict_lookup, List.find?_append, hfind]

theorem fresh_keys_of_tail {d : Cache} {k : String}
    (h : ∀ kv ∈ d, (kv.1 == k) = false) :
    ∀ kv ∈ d.tail, (kv.1 == k) = false :=
  fun kv hkv => h kv (List.mem_of_mem_tail hkv)

/-- Claim C3: in the degraded no-model state, every chat call returns the
fixed server-error string, leaves the cache untouched, performs no cache
lookup, and never invokes the external provider. -/
theorem degraded_mode_fixed_reply (md5 : String → String) (cache : Cache)
    (msg : String) :
    (get_ai_response md5 none cache msg).reply
        = "Server Error: No AI model available."
    ∧ (get_ai_response md5 none cache msg).cache = cache
    ∧ (get_ai_response md5 none cache msg).cacheLookups = 0
    ∧ (get_ai_response md5 none cache msg).modelCalls = 0 :=
  ⟨rfl, rfl, rfl, rfl⟩

/-- Claim C6: model selection picks the first preferred identifier present
in the available list, else the first available identifier in provider
order, else none; with an empty available list the process stays in the
degraded state (no active model). -/
theorem model_selection_first_preferred (available : List String) :
    selected_model_name available
      = ((target_models.filter fun t => available.contains t) ++ available).head?
    ∧ (available = [] → active_model_name available = none) := by
  constructor
  · simp only [selected_model_name, target_models, select_loop]
    by_cases h1 : available.contains "models/gemini-1.5-flash" <;>
      by_cases h2 : available.contains "models/gemini-pro" <;>
        by_cases h3 : available.contains "models/gemini-1.5-pro" <;>
          simp [h1, h2, h3, py_truthy, List.filter_cons] <;>
            cases available <;> simp_all
  · intro h
    subst h
    rfl

theorem get_ai_response_hit (md5 : String → String) (f : String → GenResult)
    (cache : Cache) (msg v : String)
    (hhit : dict_lookup cache (get_cache_key md5 msg) = some v) :
    get_ai_response md5 (some f) cache msg = ⟨v, cache, 1, 0⟩ := by
  simp only [get_ai_response, hhit]

theorem get_ai_response_raised (md5 : String → String) (f : String → GenResult)
    (cache : Cache) (msg emsg : String)
    (hmiss : dict_lookup cache (get_cache_key md5 msg) = none)
    (hgen : f (buildPrompt msg) = .raised emsg) :
    get_ai_response md5 (some f) cache msg
      = ⟨"Samawenna, podi aulak. Internet connection eka balanna.", cache, 1, 1⟩ := by
  simp only [get_ai_response, hmiss, hgen]

theorem get_ai_response_empty (md5 : String → String) (f : String → GenResult)
    (cache : Cache) (msg : String)
    (hmiss : dict_lookup cache (get_cache_key md5 msg) = none)
    (hgen : f (buildPrompt msg) = .returned "") :
    get_ai_response md5 (some f) cache msg
      = ⟨"Samawenna, mata kiyanna deyak hithaganna ba.", cache, 1, 1⟩ := by
  simp only [get_ai_response, hmiss, hgen]
  simp

theorem get_ai_response_success (md5 : String → String) (f : String → GenResult)
    (cache : Cache) (msg t : String)
    (hmiss : dict_lookup cache (get_cache_key md5 msg) = none)
    (hgen : f (buildPrompt msg) = .returned t) (hne : t ≠ "") :
    get_ai_response md5 (some f) cache msg
      = ⟨pyStrip t,
          dict_set (if MAX_CACHE_SIZE ≤ cache.length then dict_pop_first cache
            else cache) (get_cache_key md5 msg) (pyStrip t), 1, 1⟩ := by
  simp only [get_ai_response, hmiss, hgen]
  simp [hne]

theorem cached_after_success {cache : Cache} {k v : String}
    (hmiss : dict_lookup cache k = none) :
    dict_set (if MAX_CACHE_SIZE ≤ cache.length then dict_pop_first cache
        else cache) k v
      = (if MAX_CACHE_SIZE ≤ cache.length then dict_pop_first cache
        else cache) ++ [(k, v)]
    ∧ dict_lookup (dict_set (if MAX_CACHE_SIZE ≤ cache.length then
        dict_pop_first cache else cache) k v) k = some v := by
  have hfresh := (dict_lookup_eq_none_iff cache k).mp hmiss
  have hfresh1 : ∀ kv ∈ (if MAX_CACHE_SIZE ≤ cache.length then
      dict_pop_first cache else cache), (kv.1 == k) = false := by
    split
    · exact fresh_keys_of_tail hfresh
    · exact hfresh
  refine ⟨dict_set_eq_append hfresh1, ?_⟩
  rw [dict_set_eq_append hfresh1]
  exact dict_lookup_append_fresh hfresh1

/-- Claim C2: messages equal after lowercasing and stripping get the same
cache key; after a first successful (cached) call, a second call with any
such message is a hit that returns the identical cached reply, leaves the
cache unchanged, and never invokes the external model. -/
theorem normalized_messages_cache_hit (md5 : String → String)
    (f g : String → GenResult) (cache : Cache) (m1 m2 t : String)
    (hnorm : pyStrip (pyLower m1) = pyStrip (pyLower m2))
    (hmiss : dict_lookup cache (get_cache_key md5 m1) = none)
    (hgen : f (buildPrompt m1) = .returned t) (hne : t ≠ "") :
    get_cache_key md5 m1 = get_cache_key md5 m2
    ∧ (get_ai_response md5 (some g)
        (get_ai_response md5 (some f) cache m1).cache m2).reply
      = (get_ai_response md5 (some f) cache m1).reply
    ∧ (get_ai_response md5 (some g)
        (get_ai_response md5 (some f) cache m1).cache m2).cache
      = (get_ai_response md5 (some f) cache m1).cache
    ∧ (get_ai_response md5 (some g)
        (get_ai_response md5 (some f) cache m1).cache m2).modelCalls = 0 := by
  have hkey : get_cache_key md5 m1 = get_cache_key md5 m2 := by
    unfold get_cache_key
    rw [hnorm]
  have hrun1 := get_ai_response_success md5 f cache m1 t hmiss hgen hne
  have hlook := (cached_after_success (v := pyStrip t) hmiss).2
  have hhit2 : dict_lookup (get_ai_response md5 (some f) cache m1).cache
      (get_cache_key md5 m2) = some (pyStrip t) := by
    rw [hrun1, ← hkey]
    exact hlook
  have hrun2 := get_ai_response_hit md5 g
    (get_ai_response md5 (some f) cache m1).cache m2 (pyStrip t) hhit2
  refine ⟨hkey, ?_, ?_, ?_⟩
  · rw [hrun2, hrun1]
  · rw [hrun2]
  · rw [hrun2]

theorem normalized_messages_cache_hit_witness :
    pyStrip (pyLower "Hi") = pyStrip (pyLower "  hi ")
    ∧ dict_lookup [] (get_cache_key idDigest "Hi") = none
    ∧ (get_ai_response idDigest (some (modelReturning "ok"))
        (get_ai_response idDigest (some (modelReturning "  Hello  ")) [] "Hi").cache
        "  hi ").modelCalls = 0 := by
  refine ⟨by decide, rfl, ?_⟩
  exact (normalized_messages_cache_hit idDigest (modelReturning "  Hello  ")
    (modelReturning "ok") [] "Hi" "  hi " "  Hello  " (by decide) rfl rfl
    (by decide)).2.2.2

/-- Claim C4: a raising model call is caught; the handler returns the fixed
connection-trouble string, the cache is unchanged, and the /chat endpoint
still answers with status 200 and a reply field. -/
theorem model_error_fallback (md5 : String → String) (f : String → GenResult)
    (cache : Cache) (msg emsg : String)
    (hmiss : dict_lookup cache (get_cache_key md5 msg) = none)
    (hgen : f (buildPrompt msg) = .raised emsg) :
    (get_ai_response md5 (some f) cache msg).reply
        = "Samawenna, podi aulak. Internet connection eka balanna."
    ∧ (get_ai_response md5 (some f) cache msg).cache = cache
    ∧ chat_endpoint md5 (some f) cache msg
        = (⟨200, "Samawenna, podi aulak. Internet connection eka balanna."⟩, cache) := by
  have hrun := get_ai_response_raised md5 f cache msg emsg hmiss hgen
  refine ⟨by rw [hrun], by rw [hrun], ?_⟩
  unfold chat_endpoint
  rw [hrun]

theorem model_error_fallback_witness :
    dict_lookup [] (get_cache_key idDigest "Hi") = none
    ∧ chat_endpoint idDigest (some (modelRaising "quota exceeded")) [] "Hi"
        = (⟨200, "Samawenna, podi aulak. Internet connection eka balanna."⟩, []) := by
  refine ⟨rfl, ?_⟩
  exact (model_error_fallback idDigest (modelRaising "quota exceeded") [] "Hi"
    "quota exceeded" rfl rfl).2.2

/-- Claim C5: an empty model answer yields the fixed no-answer string and
is not cached, so a later call with the same normalized message misses the
cache and invokes the external model again. -/
theorem empty_text_fallback_not_cached (md5 : String → String)
    (f g : String → GenResult) (cache : Cache) (m1 m2 : String)
    (hnorm : pyStrip (pyLower m1) = pyStrip (pyLower m2))
    (hmiss : dict_lookup cache (get_cache_key md5 m1) = none)
    (hgen : f (buildPrompt m1) = .returned "") :
    (get_ai_response md5 (some f) cache m1).reply
        = "Samawenna, mata kiyanna deyak hithaganna ba."
    ∧ (get_ai_response md5 (some f) cache m1).cache = cache
    ∧ (get_ai_response md5 (some g)
        (get_ai_response md5 (some f) cache m1).cache m2).modelCalls = 1 := by
  have hkey : get_cache_key md5 m1 = get_cache_key md5 m2 := by
    unfold get_cache_key
    rw [hnorm]
  have hrun1 := get_ai_response_empty md5 f cache m1 hmiss hgen
  have hmiss2 : dict_lookup (get_ai_response md5 (some f) cache m1).cache
      (get_cache_key md5 m2) = none := by
    rw [hrun1, ← hkey]
    exact hmiss
  refine ⟨by rw [hrun1], by rw [hrun1], ?_⟩
  cases hg : g (buildPrompt m2) with
  | raised emsg =>
    rw [get_ai_response_raised md5 g _ m2 emsg hmiss2 hg]
  | returned t =>
    by_cases ht : t = ""
    · subst ht
      rw [get_ai_response_empty md5 g _ m2 hmiss2 hg]
    · rw [get_ai_response_success md5 g _ m2 t hmiss2 hg ht]

theorem empty_text_fallback_not_cached_witness :
    pyStrip (pyLower "Hi") = pyStrip (pyLower " hi")
    ∧ dict_lookup [] (get_cache_key idDigest "Hi") = none
    ∧ (get_ai_response idDigest (some (modelReturning "answer"))
        (get_ai_response idDigest (some (modelReturning "")) [] "Hi").cache
        " hi").modelCalls = 1 := by
  refine ⟨by decide, rfl, ?_⟩
  exact (empty_text_fallback_not_cached idDigest (modelReturning "")
    (modelReturning "answer") [] "Hi" " hi" (by decide) rfl rfl).2.2

/-- Claim C7: a successful non-empty model answer is stripped of leading
and trailing whitespace, stored in the cache under the message key, and
returned to the caller. -/
theorem success_reply_trimmed_and_cached (md5 : String → String)
    (f : String → GenResult) (cache : Cache) (msg t : String)
    (hmiss : dict_lookup cache (get_cache_key md5 msg) = none)
    (hgen : f (buildPrompt msg) = .returned t) (hne : t ≠ "") :
    (get_ai_response md5 (some f) cache msg).reply = pyStrip t
    ∧ dict_lookup (get_ai_response md5 (some f) cache msg).cache
        (get_cache_key md5 msg) = some (pyStrip t) := by
  have hrun := get_ai_response_success md5 f cache msg t hmiss hgen hne
  refine ⟨by rw [hrun], ?_⟩
  rw [hrun]
  exact (cached_after_success (v := pyStrip t) hmiss).2

theorem success_reply_trimmed_and_cached_witness :
    dict_lookup [] (get_cache_key idDigest "Hi") = none
    ∧ (get_ai_response idDigest (some (modelReturning "  Hello!  ")) [] "Hi").reply
        = pyStrip "  Hello!  "
    ∧ dict_lookup (get_ai_response idDigest
        (some (modelReturning "  Hello!  ")) [] "Hi").cache
        (get_cache_key idDigest "Hi") = some (pyStrip "  Hello!  ") := by
  refine ⟨rfl, ?_, ?_⟩
  · exact (success_reply_trimmed_and_cached idDigest (modelReturning "  Hello!  ")
      [] "Hi" "  Hello!  " rfl rfl (by decide)).1
  · exact (success_reply_trimmed_and_cached idDigest (modelReturning "  Hello!  ")
      [] "Hi" "  Hello!  " rfl rfl (by decide)).2

theorem dict_set_length_le (d : Cache) (k v : String) :
    (dict_set d k v).length ≤ d.length + 1 := by
  rw [dict_set]
  split
  · simp
  · simp

theorem get_ai_response_cache_length_le (md5 : String → String)
    (am : Option (String → GenResult)) (cache : Cache) (msg : String)
    (h : cache.length ≤ MAX_CACHE_SIZE) :
    (get_ai_response md5 am cache msg).cache.length ≤ MAX_CACHE_SIZE := by
  cases am with
  | none => exact h
  | some f =>
    cases hl : dict_lookup cache (get_cache_key md5 msg) with
    | some v =>
      rw [get_ai_response_hit md5 f cache msg v hl]
      exact h
    | none =>
      cases hg : f (buildPrompt msg) with
      | raised emsg =>
        rw [get_ai_response_raised md5 f cache msg emsg hl hg]
        exact h
      | returned t =>
        by_cases ht : t = ""
        · subst ht
          rw [get_ai_response_empty md5 f cache msg hl hg]
          exact h
        · rw [get_ai_response_success md5 f cache msg t hl hg ht]
          show (dict_set _ _ _).length ≤ MAX_CACHE_SIZE
          by_cases hc : MAX_CACHE_SIZE ≤ cache.length
          · rw [if_pos hc]
            have h1 := dict_set_length_le (dict_pop_first cache)
              (get_cache_key md5 msg) (pyStrip t)
            have h2 : (dict_pop_first cache).length = cache.length - 1 := by
              simp [dict_pop_first]
            simp only [MAX_CACHE_SIZE] at h hc ⊢
            omega
          · rw [if_neg hc]
            have h1 := dict_set_length_le cache (get_cache_key md5 msg) (pyStrip t)
            simp only [MAX_CACHE_SIZE] at h hc ⊢
            omega

theorem run_chats_length_le (md5 : String → String)
    (steps : List (Option (String → GenResult) × String)) :
    ∀ cache : Cache, cache.length ≤ MAX_CACHE_SIZE →
      (run_chats md5 cache steps).length ≤ MAX_CACHE_SIZE := by
  induction steps with
  | nil =>
    intro cache h
    exact h
  | cons s rest ih =>
    intro cache h
    simp only [run_chats, List.foldl_cons]
    exact ih _ (get_ai_response_cache_length_le md5 s.1 cache s.2 h)

/-- Claim C1: along every sequence of chat calls from the empty cache the
cache never exceeds 100 entries; and whenever a successful reply is
inserted while the cache holds at least 100 entries, exactly the oldest
inserted entry is removed and the new entry goes to the newest position,
keeping the size unchanged. -/
theorem cache_fifo_bound :
    (∀ (md5 : String → String)
        (steps : List (Option (String → GenResult) × String)),
        (run_chats md5 [] steps).length ≤ MAX_CACHE_SIZE)
    ∧ (∀ (md5 : String → String) (f : String → GenResult) (cache : Cache)
        (msg t : String),
        MAX_CACHE_SIZE ≤ cache.length →
        dict_lookup cache (get_cache_key md5 msg) = none →
        f (buildPrompt msg) = .returned t → t ≠ "" →
        (get_ai_response md5 (some f) cache msg).cache
          = cache.tail ++ [(get_cache_key md5 msg, pyStrip t)]
        ∧ (get_ai_response md5 (some f) cache msg).cache.length
          = cache.length) := by
  constructor
  · intro md5 steps
    exact run_chats_length_le md5 steps [] (by simp)
  · intro md5 f cache msg t hlen hmiss hgen hne
    have hrun := get_ai_response_success md5 f cache msg t hmiss hgen hne
    have happ := (cached_after_success (v := pyStrip t) hmiss).1
    have hcache : (get_ai_response md5 (some f) cache msg).cache
        = cache.tail ++ [(get_cache_key md5 msg, pyStrip t)] := by
      rw [hrun]
      show dict_set _ _ _ = _
      rw [happ, if_pos hlen]
      rfl
    refine ⟨hcache, ?_⟩
    rw [hcache]
    simp only [MAX_CACHE_SIZE] at hlen
    simp [List.length_append, List.length_tail]
    omega

theorem cache_fifo_bound_witness :
    MAX_CACHE_SIZE ≤ cache100.length
    ∧ dict_lookup cache100 (get_cache_key idDigest "a new question") = none
    ∧ (get_ai_response idDigest (some (modelReturning "fresh answer"))
        cache100 "a new question").cache.length = cache100.length := by
  refine ⟨by decide, by decide, ?_⟩
  exact (cache_fifo_bound.2 idDigest (modelReturning "fresh answer") cache100
    "a new question" "fresh answer" (by decide) (by decide) rfl (by decide)).2

theorem dict_set_values_stripped {d : Cache} {k v : String}
    (hd : cache_values_stripped d) (hv : pyStrip v = v) :
    cache_values_stripped (dict_set d k v) := by
  rw [dict_set]
  split
  · intro kv hkv
    rw [List.mem_map] at hkv
    obtain ⟨kv0, hkv0, heq⟩ := hkv
    by_cases hk : (kv0.1 == k) = true
    · rw [if_pos hk] at heq
      rw [← heq]
      exact hv
    · rw [if_neg hk] at heq
      rw [← heq]
      exact hd kv0 hkv0
  · intro kv hkv
    rcases List.mem_append.mp hkv with h1 | h2
    · exact hd kv h1
    · rw [List.mem_singleton] at h2
      subst h2
      exact hv

/-- Claim C10: the only cache insertion stores the stripped model text and
no operation mutates stored values, so after any chat call every cached
value is whitespace-trimmed (equal to its own strip). -/
theorem cache_values_trimmed_invariant (md5 : String → String)
    (am : Option (String → GenResult)) (cache : Cache) (msg : String)
    (h : cache_values_stripped cache) :
    cache_values_stripped (get_ai_response md5 am cache msg).cache := by
  cases am with
  | none => exact h
  | some f =>
    cases hl : dict_lookup cache (get_cache_key md5 msg) with
    | some v =>
      rw [get_ai_response_hit md5 f cache msg v hl]
      exact h
    | none =>
      cases hg : f (buildPrompt msg) with
      | raised emsg =>
        rw [get_ai_response_raised md5 f cache msg emsg hl hg]
        exact h
      | returned t =>
        by_cases ht : t = ""
        · subst ht
          rw [get_ai_response_empty md5 f cache msg hl hg]
          exact h
        · rw [get_ai_response_success md5 f cache msg t hl hg ht]
          show cache_values_stripped (dict_set _ _ _)
          apply dict_set_values_stripped _ (pyStrip_idem t)
          split
          · intro kv hkv
            exact h kv (List.mem_of_mem_tail hkv)
          · exact h

theorem cache_values_trimmed_invariant_witness :
    cache_values_stripped ([] : Cache)
    ∧ cache_values_stripped (get_ai_response idDigest
        (some (modelReturning "  hey there  ")) [] "Hi").cache := by
  have h0 : cache_values_stripped ([] : Cache) := by
    intro kv hkv
    simp at hkv
  exact ⟨h0, cache_values_trimmed_invariant idDigest
    (some (modelReturning "  hey there  ")) [] "Hi" h0⟩

/-- Claim C8: every exception raised at any persist, convert, or respond
step of either conversion handler is caught and surfaced as HTTPException
500 whose detail is the exception message. -/
theorem conversion_errors_map_to_500 (ienv : ImgEnv) (penv : PdfEnv)
    (filename m : String) :
    (ienv.writeUpload (input_path_of filename) = .exc m →
        img_to_pdf ienv filename = .error ⟨500, m⟩)
    ∧ (ienv.writeUpload (input_path_of filename) = .ok () →
        ienv.openImage (input_path_of filename) = .exc m →
        img_to_pdf ienv filename = .error ⟨500, m⟩)
    ∧ (∀ img : PILImg, ienv.writeUpload (input_path_of filename) = .ok () →
        ienv.openImage (input_path_of filename) = .ok img →
        (if img.mode ≠ "RGB" then ienv.convertMode img "RGB" else .ok img)
          = .exc m →
        img_to_pdf ienv filename = .error ⟨500, m⟩)
    ∧ (∀ img img2 : PILImg,
        ienv.writeUpload (input_path_of filename) = .ok () →
        ienv.openImage (input_path_of filename) = .ok img →
        (if img.mode ≠ "RGB" then ienv.convertMode img "RGB" else .ok img)
          = .ok img2 →
        ienv.save img2 (img_output_path filename) = .exc m →
        img_to_pdf ienv filename = .error ⟨500, m⟩)
    ∧ (∀ img img2 : PILImg,
        ienv.writeUpload (input_path_of filename) = .ok () →
        ienv.openImage (input_path_of filename) = .ok img →
        (if img.mode ≠ "RGB" then ienv.convertMode img "RGB" else .ok img)
          = .ok img2 →
        ienv.save img2 (img_output_path filename) = .ok () →
        ienv.mkResponse (img_output_path filename) (img_output_filename filename)
          "application/pdf" = .exc m →
        img_to_pdf ienv filename = .error ⟨500, m⟩)
    ∧ (penv.writeUpload (input_path_of filename) = .exc m →
        pdf_to_word penv filename = .error ⟨500, m⟩)
    ∧ (penv.writeUpload (input_path_of filename) = .ok () →
        penv.mkConverter (input_path_of filename) = .exc m →
        pdf_to_word penv filename = .error ⟨500, m⟩)
    ∧ (∀ cv : PdfConverter,
        penv.writeUpload (input_path_of filename) = .ok () →
        penv.mkConverter (input_path_of filename) = .ok cv →
        penv.convert cv (word_output_path filename) 0 none = .exc m →
        pdf_to_word penv filename = .error ⟨500, m⟩)
    ∧ (∀ cv : PdfConverter,
        penv.writeUpload (input_path_of filename) = .ok () →
        penv.mkConverter (input_path_of filename) = .ok cv →
        penv.convert cv (word_output_path filename) 0 none = .ok () →
        penv.close cv = .exc m →
        pdf_to_word penv filename = .error ⟨500, m⟩)
    ∧ (∀ cv : PdfConverter,
        penv.writeUpload (input_path_of filename) = .ok () →
        penv.mkConverter (input_path_of filename) = .ok cv →
        penv.convert cv (word_output_path filename) 0 none = .ok () →
        penv.close cv = .ok () →
        penv.mkResponse (word_output_path filename) (word_output_filename filename)
          "application/vnd.openxmlformats-officedocument.wordprocessingml.document"
          = .exc m →
        pdf_to_word penv filename = .error ⟨500, m⟩) := by
  refine ⟨?_, ?_, ?_, ?_, ?_, ?_, ?_, ?_, ?_, ?_⟩
  · intro h1
    simp only [img_to_pdf, img_to_pdf_body, h1]
  · intro h1 h2
    simp only [img_to_pdf, img_to_pdf_body, h1, h2]
  · intro img h1 h2 h3
    simp only [img_to_pdf, img_to_pdf_body, h1, h2, h3]
  · intro img img2 h1 h2 h3 h4
    simp only [img_to_pdf, img_to_pdf_body, h1, h2, h3, h4]
  · intro img img2 h1 h2 h3 h4 h5
    simp only [img_to_pdf, img_to_pdf_body, h1, h2, h3, h4, h5]
  · intro h1
    simp only [pdf_to_word, pdf_to_word_body, h1]
  · intro h1 h2
    simp only [pdf_to_word, pdf_to_word_body, h1, h2]
  · intro cv h1 h2 h3
    simp only [pdf_to_word, pdf_to_word_body, h1, h2, h3]
  · intro cv h1 h2 h3 h4
    simp only [pdf_to_word, pdf_to_word_body, h1, h2, h3, h4]
  · intro cv h1 h2 h3 h4 h5
    simp only [pdf_to_word, pdf_to_word_body, h1, h2, h3, h4, h5]

theorem conversion_errors_map_to_500_witness :
    img_to_pdf imgEnvRespRaises "a.png" = .error ⟨500, "disk full"⟩
    ∧ pdf_to_word pdfEnvConvertRaises "a.pdf" = .error ⟨500, "bad pdf"⟩ := by
  constructor
  · exact (conversion_errors_map_to_500 imgEnvRespRaises pdfEnvConvertRaises
      "a.png" "disk full").2.2.2.2.1 ⟨"RGB"⟩ ⟨"RGB"⟩ rfl rfl (by simp) rfl rfl
  · exact (conversion_errors_map_to_500 imgEnvRespRaises pdfEnvConvertRaises
      "a.pdf" "bad pdf").2.2.2.2.2.2.2.1 ⟨input_path_of "a.pdf"⟩ rfl rfl rfl

/-- Claim C9 counterexample: the handler names the output after the part of
the upload name before the FIRST dot, not after the filename stem; on the
upload photo.final.png the produced name is photo.pdf while the stem-based
name of the claim would be photo.final.pdf. -/
theorem img_to_pdf_filename_not_stem :
    img_to_pdf imgEnvOk "photo.final.png"
      = .ok ⟨"temp_outputs/photo.pdf", "photo.pdf", "application/pdf"⟩
    ∧ spec_filename_stem "photo.final.png" ++ ".pdf" = "photo.final.pdf"
    ∧ ("photo.pdf" : String) ≠ "photo.final.pdf" := by
  refine ⟨rfl, by decide, by decide⟩

/-- Claim C9 (amended): when every conversion step succeeds, the img-to-pdf
handler returns the produced PDF under a name equal to the portion of the
original filename before its first dot (the whole name when it has no
dot), followed by the .pdf extension, with the PDF media type. -/
theorem img_to_pdf_response_filename (env : ImgEnv) (filename : String)
    (img img2 : PILImg)
    (h1 : env.writeUpload (input_path_of filename) = .ok ())
    (h2 : env.openImage (input_path_of filename) = .ok img)
    (h3 : (if img.mode ≠ "RGB" then env.convertMode img "RGB" else .ok img)
      = .ok img2)
    (h4 : env.save img2 (img_output_path filename) = .ok ())
    (h5 : env.mkResponse (img_output_path filename)
      (img_output_filename filename) "application/pdf" = .ok ()) :
    img_to_pdf env filename
      = .ok ⟨img_output_path filename,
          ((pySplit '.' filename).headD "") ++ ".pdf", "application/pdf"⟩ := by
  simp only [img_to_pdf, img_to_pdf_body, h1, h2, h3, h4, h5]
  rfl

theorem img_to_pdf_response_filename_witness :
    img_to_pdf imgEnvOk "photo.png"
      = .ok ⟨img_output_path "photo.png",
          ((pySplit '.' "photo.png").headD "") ++ ".pdf", "application/pdf"⟩ :=
  img_to_pdf_response_filename imgEnvOk "photo.png" ⟨"RGB"⟩ ⟨"RGB"⟩ rfl rfl
    (by simp) rfl rfl

theorem model_selection_first_preferred_witness :
    active_model_name [] = none :=
  (model_selection_first_preferred []).2 rfl
